import Mathlib

/-!
Shallow embedding of the process-lifecycle supervisor of
`rust-daemon-runner` (`src/runner.rs` together with `src/error.rs`).

The OS is modelled by an explicit `World`: a table of processes (indexed
by pid) each either running or exited, plus a flag saying whether the
next spawn attempt fails.  Rust `unwrap()` panics are modelled by an
outer `Option` on each operation (`none` = panic).  The adapter trait
`RunnerHelper` becomes a record of the hook results the supervisor
consumes, and the supervisor object itself is reduced to its published
runtime slot (`_get_runtime` / `_notif_started` in the source store an
`Option<Arc<Mutex<RuntimeData>>>` field; `_notif_started` sets it).
-/

/-- OS exit status of a child process (`process::ExitStatus`):
either a normal exit code or termination by a signal. -/
inductive ExitStatus : Type where
  | code (n : Int)
  | signal (n : Nat)
deriving DecidableEq, Repr

/-- Embeds `runner.rs` lines 37-42: the lifecycle status enum. -/
inductive Status : Type where
  | Init
  | Running
  | Stopped (c : ExitStatus)
deriving DecidableEq, Repr

/-- Model of the OS-level `io::Error` values the supervisor can meet. -/
inductive OsErr : Type where
  | spawnDenied
  | killFailed
deriving DecidableEq, Repr

/-- Embeds `error.rs` lines 5-21: the crate error enum.  `RunCommand` carries the
attempted command (modelled as its textual form) next to the OS error. -/
inductive Error : Type where
  | Io (e : OsErr)
  | Config (s : String)
  | BitcoinRpc
  | LiquidRpc
  | Custom (s : String)
  | InvalidState (s : Status)
  | RunCommand (e : OsErr) (cmd : String)
deriving DecidableEq, Repr

/-- State of one OS process in the world model. -/
inductive ProcState : Type where
  | running
  | exited (c : ExitStatus)
deriving DecidableEq, Repr

/-- The OS world: a process table (pid = list index) and a flag that
decides whether the next `spawn` attempt fails. -/
structure World : Type where
  procs : List ProcState
  spawnFail : Bool
deriving DecidableEq, Repr

/-- Models `process::Command::spawn`: fails when the world refuses, otherwise
creates a fresh running process and returns its pid. -/
def World.spawn (w : World) : Except OsErr (World × Nat) :=
  if w.spawnFail then Except.error OsErr.spawnDenied
  else Except.ok ({ w with procs := w.procs ++ [ProcState.running] }, w.procs.length)

/-- Models `process::Child::try_wait`: non-blocking poll.  `none` while the
process is still running, `some c` once it has exited with status `c`. -/
def World.tryWait (w : World) (p : Nat) : Option ExitStatus :=
  match w.procs.get? p with
  | some (ProcState.exited c) => some c
  | _ => none

/-- Models `process::Child::kill`: succeeds on a running process (which then
shows up as signal-terminated), errors when the process already exited. -/
def World.killProc (w : World) (p : Nat) : Except OsErr World :=
  match w.procs.get? p with
  | some ProcState.running =>
      Except.ok { w with procs := w.procs.set p (ProcState.exited (ExitStatus.signal 9)) }
  | _ => Except.error OsErr.killFailed

/-- A process in the world exits on its own (external event, not an
operation of the supervisor). -/
def World.procExits (w : World) (p : Nat) (c : ExitStatus) : World :=
  { w with procs := w.procs.set p (ProcState.exited c) }

/-- Embeds `runner.rs` line 10: the owned child-process handle with
kill-on-drop semantics. -/
structure KillOnDropChild : Type where
  pid : Nat
deriving DecidableEq, Repr

/-- Embeds `runner.rs` lines 21-27: `Drop for KillOnDropChild`.  Attempts to
kill the underlying process; the result of the kill is discarded
(`let _ = self.0.kill();`), so the drop itself never fails. -/
def KillOnDropChild.dropChild (w : World) (c : KillOnDropChild) : World :=
  match w.killProc c.pid with
  | Except.ok w1 => w1
  | Except.error _ => w

/-- Embeds `runner.rs` lines 29-35: the shared runtime record.  Thread join
handles are modelled as bare numeric identifiers. -/
structure RuntimeData (S : Type) : Type where
  state : S
  process : Option KillOnDropChild
  stdout_thread : Option Nat
  stderr_thread : Option Nat

/-- Embeds `runner.rs` lines 47-76: the adapter hook set, reduced to the results
the supervisor consumes.  `prepare` is the outcome of `_prepare`,
`command` the textual form of `_command()` (kept for the `RunCommand`
error payload), `initState` the value of `_init_state()`, and the two
line handlers are `_process_stdout` / `_process_stderr`. -/
structure RunnerHelper (S : Type) : Type where
  prepare : Except Error Unit
  command : String
  initState : S
  processStdout : S → String → S
  processStderr : S → String → S

/-- The supervisor as the lifecycle methods see it: its published runtime
slot (the field behind `_get_runtime` / `_notif_started`). -/
structure DaemonRunner (S : Type) : Type where
  runtime : Option (RuntimeData S)

/-- Embeds `runner.rs` lines 185-196: `status()`.  `Init` when no record is
published; otherwise unwrap the process handle (panic = `none` when it
is missing) and poll it with `try_wait`.  The model's `try_wait` cannot
raise an I/O error, so the `Result` layer of the source is dropped. -/
def DaemonRunner.status {S : Type} (r : DaemonRunner S) (w : World) : Option Status :=
  match r.runtime with
  | none => some Status.Init
  | some rt =>
    match rt.process with
    | none => none
    | some child =>
      match w.tryWait child.pid with
      | none => some Status.Running
      | some c => some (Status.Stopped c)

/-- Embeds `runner.rs` lines 199-201: `pid()`.  Outer `none` = panic of the
`unwrap` on a published record without a process handle. -/
def DaemonRunner.pid {S : Type} (r : DaemonRunner S) : Option (Option Nat) :=
  match r.runtime with
  | none => some none
  | some rt =>
    match rt.process with
    | none => none
    | some child => some (some child.pid)

/-- Embeds `runner.rs` lines 83-127: `_start_up`.  Spawns the command (failure
is wrapped as `RunCommand` with the command), stores the new handle into
the record — the assignment drops the previous `KillOnDropChild`, whose
drop runs its swallowed kill attempt — and replaces the two reader-loop
handles with the handles of the freshly spawned threads.  The `state`
field is not touched. -/
def DaemonRunner.startUp {S : Type} (a : RunnerHelper S) (rt : RuntimeData S)
    (w : World) : Except Error (RuntimeData S × World) :=
  match w.spawn with
  | Except.error e => Except.error (Error.RunCommand e a.command)
  | Except.ok (w1, p) =>
    let w2 := match rt.process with
      | some old => KillOnDropChild.dropChild w1 old
      | none => w1
    Except.ok ({ rt with
        process := some { pid := p },
        stdout_thread := some (2 * p),
        stderr_thread := some (2 * p + 1) }, w2)

/-- Embeds `runner.rs` lines 133-151: `start()`.  Guard on `status == Init`,
run `_prepare`, build a fresh record with `_init_state` and no process,
run `_start_up` on it, and only on success publish it
(`_notif_started`).  Every error path leaves the supervisor and the
world untouched. -/
def DaemonRunner.start {S : Type} (a : RunnerHelper S) (r : DaemonRunner S)
    (w : World) : Option (Except Error Unit × DaemonRunner S × World) :=
  match DaemonRunner.status r w with
  | none => none
  | some Status.Init =>
    match a.prepare with
    | Except.error e => some (Except.error e, r, w)
    | Except.ok _ =>
      match DaemonRunner.startUp a
          { state := a.initState, process := none,
            stdout_thread := none, stderr_thread := none } w with
      | Except.error e => some (Except.error e, r, w)
      | Except.ok (rt1, w1) => some (Except.ok (), { runtime := some rt1 }, w1)
  | some st => some (Except.error (Error.InvalidState st), r, w)

/-- Embeds `runner.rs` lines 167-182: `stop()`.  `InvalidState` from `Init`,
no-op success when already `Stopped`, otherwise unwrap the record and
its process handle and send the kill signal; the record is kept. -/
def DaemonRunner.stop {S : Type} (r : DaemonRunner S) (w : World) :
    Option (Except Error Unit × DaemonRunner S × World) :=
  match DaemonRunner.status r w with
  | none => none
  | some Status.Init => some (Except.error (Error.InvalidState Status.Init), r, w)
  | some (Status.Stopped _) => some (Except.ok (), r, w)
  | some Status.Running =>
    match r.runtime with
    | none => none
    | some rt =>
      match rt.process with
      | none => none
      | some child =>
        match w.killProc child.pid with
        | Except.error e => some (Except.error (Error.Io e), r, w)
        | Except.ok w1 => some (Except.ok (), r, w1)

/-- The tail of `restart()` (line 161): `_start_up(self._get_runtime().unwrap())`
— unwrap the published record (panic when absent) and run `_start_up`
on that very record. -/
def DaemonRunner.restartTail {S : Type} (a : RunnerHelper S) (r : DaemonRunner S)
    (w : World) : Option (Except Error Unit × DaemonRunner S × World) :=
  match r.runtime with
  | none => none
  | some rt =>
    match DaemonRunner.startUp a rt w with
    | Except.error e => some (Except.error e, r, w)
    | Except.ok (rt1, w1) => some (Except.ok (), { runtime := some rt1 }, w1)

/-- Embeds `runner.rs` lines 154-162: `restart()`.  `InvalidState` from `Init`;
from `Running` an implicit `stop()` first (its error propagates); then
the start-up sub-protocol on the existing record. -/
def DaemonRunner.restart {S : Type} (a : RunnerHelper S) (r : DaemonRunner S)
    (w : World) : Option (Except Error Unit × DaemonRunner S × World) :=
  match DaemonRunner.status r w with
  | none => none
  | some Status.Init => some (Except.error (Error.InvalidState Status.Init), r, w)
  | some Status.Running =>
    match DaemonRunner.stop r w with
    | none => none
    | some (Except.error e, r1, w1) => some (Except.error e, r1, w1)
    | some (Except.ok _, r1, w1) => DaemonRunner.restartTail a r1 w1
  | some (Status.Stopped _) => DaemonRunner.restartTail a r w

/-- One item yielded by `io::Lines` over the pipe: a decoded line or a
UTF-8 decode failure. -/
inductive LineItem : Type where
  | ok (l : String)
  | decodeErr
deriving DecidableEq, Repr

/-- Embeds `runner.rs` lines 105-107 / 118-120: the body of a reader loop.
`for line in buf_read.lines() { handler(&mut state, &line.unwrap()) }` —
each decoded line is fed to the handler in order, a decode failure makes
`unwrap` panic (`none`), and the loop returns when the stream ends.  The
second component is the trace of lines delivered to the handler. -/
def readerLoop {S : Type} (h : S → String → S) (s : S) :
    List LineItem → Option (S × List String)
  | [] => some (s, [])
  | LineItem.decodeErr :: _ => none
  | LineItem.ok l :: rest =>
    match readerLoop h (h s l) rest with
    | none => none
    | some (s1, tr) => some (s1, l :: tr)

/-- Derived `Debug` text of an `ExitStatus` in the model. -/
def ExitStatus.debugFmt : ExitStatus → String
  | ExitStatus.code n => "code(" ++ toString n ++ ")"
  | ExitStatus.signal n => "signal(" ++ toString n ++ ")"

/-- Derived `Debug` text of a `Status` (`runner.rs` line 37 derives
`Debug`). -/
def Status.debugFmt : Status → String
  | Status.Init => "Init"
  | Status.Running => "Running"
  | Status.Stopped c => "Stopped(" ++ ExitStatus.debugFmt c ++ ")"

/-- Embeds `error.rs` lines 41-45: `Display for Error` delegates to the derived
`Debug`, so the user-visible text of a variant is its constructor name
with its payloads — nothing else. -/
def Error.displayFmt : Error → String
  | Error.Io e => "Io(" ++ (match e with
      | OsErr.spawnDenied => "spawnDenied"
      | OsErr.killFailed => "killFailed") ++ ")"
  | Error.Config s => "Config(" ++ s ++ ")"
  | Error.BitcoinRpc => "BitcoinRpc"
  | Error.LiquidRpc => "LiquidRpc"
  | Error.Custom s => "Custom(" ++ s ++ ")"
  | Error.InvalidState s => "InvalidState(" ++ Status.debugFmt s ++ ")"
  | Error.RunCommand e cmd => "RunCommand(" ++ (match e with
      | OsErr.spawnDenied => "spawnDenied"
      | OsErr.killFailed => "killFailed") ++ ", " ++ cmd ++ ")"

/-- Supervisor states reachable through the public operations, starting
from a freshly constructed supervisor (no record published) in any
world, stepping by `start`, `restart` and `stop` with arbitrary adapters
and worlds (`status` and `pid` do not modify the supervisor). -/
inductive Reachable {S : Type} : DaemonRunner S → Prop where
  | init : Reachable { runtime := none }
  | step_start {r r' : DaemonRunner S} {a : RunnerHelper S} {w w' : World}
      {res : Except Error Unit} :
      Reachable r → DaemonRunner.start a r w = some (res, r', w') → Reachable r'
  | step_restart {r r' : DaemonRunner S} {a : RunnerHelper S} {w w' : World}
      {res : Except Error Unit} :
      Reachable r → DaemonRunner.restart a r w = some (res, r', w') → Reachable r'
  | step_stop {r r' : DaemonRunner S} {w w' : World} {res : Except Error Unit} :
      Reachable r → DaemonRunner.stop r w = some (res, r', w') → Reachable r'

/-- The record invariant of §3 of the spec: a published record always
holds a process handle. -/
def ProcessInv {S : Type} (r : DaemonRunner S) : Prop :=
  ∀ rt, r.runtime = some rt → rt.process.isSome

/-! Concrete fixtures used by witness theorems. -/

/-- A concrete adapter over `Nat` state whose hooks all succeed. -/
def natAdapter : RunnerHelper Nat :=
  { prepare := Except.ok (), command := "daemond -regtest",
    initState := 0,
    processStdout := fun s _ => s + 1,
    processStderr := fun s _ => s }

/-- A concrete adapter whose prepare hook fails. -/
def failPrepAdapter : RunnerHelper Nat :=
  { prepare := Except.error (Error.Custom "no datadir"),
    command := "daemond -regtest",
    initState := 0,
    processStdout := fun s _ => s + 1,
    processStderr := fun s _ => s }

/-- A freshly constructed supervisor: nothing published. -/
def runnerInit : DaemonRunner Nat := { runtime := none }

/-- A published record whose process is pid 0. -/
def rtLive : RuntimeData Nat :=
  { state := 5, process := some { pid := 0 },
    stdout_thread := some 0, stderr_thread := some 1 }

/-- A supervisor with the record `rtLive` published. -/
def runnerLive : DaemonRunner Nat := { runtime := some rtLive }

/-- A world in which process 0 is running and spawning succeeds. -/
def worldRun : World := { procs := [ProcState.running], spawnFail := false }

/-- A world in which process 0 has exited with code 0. -/
def worldDead : World := { procs := [ProcState.exited (ExitStatus.code 0)], spawnFail := false }

/-! Helper lemmas shared by the claim theorems. -/

theorem status_init_elim {S : Type} {r : DaemonRunner S} {w : World}
    (h : DaemonRunner.status r w = some Status.Init) : r.runtime = none := by
  unfold DaemonRunner.status at h
  split at h
  · assumption
  · split at h
    · exact Option.noConfusion h
    · split at h <;> simp at h

theorem status_running_elim {S : Type} {r : DaemonRunner S} {w : World}
    (h : DaemonRunner.status r w = some Status.Running) :
    ∃ rt child, r.runtime = some rt ∧ rt.process = some child ∧
      w.tryWait child.pid = none := by
  unfold DaemonRunner.status at h
  split at h
  · simp at h
  · rename_i rt hr
    split at h
    · exact Option.noConfusion h
    · rename_i child hp
      split at h
      · rename_i ht
        exact ⟨rt, child, hr, hp, ht⟩
      · simp at h

theorem status_stopped_elim {S : Type} {r : DaemonRunner S} {w : World} {c : ExitStatus}
    (h : DaemonRunner.status r w = some (Status.Stopped c)) :
    ∃ rt child, r.runtime = some rt ∧ rt.process = some child ∧
      w.tryWait child.pid = some c := by
  unfold DaemonRunner.status at h
  split at h
  · simp at h
  · rename_i rt hr
    split at h
    · exact Option.noConfusion h
    · rename_i child hp
      split at h
      · simp at h
      · rename_i c0 ht
        simp only [Option.some.injEq, Status.Stopped.injEq] at h
        exact ⟨rt, child, hr, hp, h ▸ ht⟩

/-- Lemma: `stop` never modifies the supervisor's published slot. -/
theorem stop_frame {S : Type} {r r' : DaemonRunner S} {w w' : World}
    {res : Except Error Unit}
    (h : DaemonRunner.stop r w = some (res, r', w')) : r' = r := by
  unfold DaemonRunner.stop at h
  split at h
  · exact Option.noConfusion h
  · cases h; rfl
  · cases h; rfl
  · split at h
    · exact Option.noConfusion h
    · split at h
      · exact Option.noConfusion h
      · split at h
        · cases h; rfl
        · cases h; rfl

/-- A successful `_start_up` on record `rt` replaces exactly the process
handle and the two reader-loop handles and leaves `state` untouched. -/
theorem startUp_ok_elim {S : Type} {a : RunnerHelper S} {rt rt1 : RuntimeData S}
    {w w1 : World} (h : DaemonRunner.startUp a rt w = Except.ok (rt1, w1)) :
    rt1.state = rt.state ∧ rt1.process = some { pid := w.procs.length } ∧
    rt1.stdout_thread = some (2 * w.procs.length) ∧
    rt1.stderr_thread = some (2 * w.procs.length + 1) := by
  unfold DaemonRunner.startUp at h
  cases hsp : World.spawn w with
  | error e => rw [hsp] at h; exact Except.noConfusion h
  | ok pr =>
    obtain ⟨w2, p⟩ := pr
    rw [hsp] at h
    have hp : p = w.procs.length := by
      unfold World.spawn at hsp
      split at hsp
      · exact Except.noConfusion hsp
      · cases hsp; rfl
    subst hp
    cases h
    exact ⟨rfl, rfl, rfl, rfl⟩


/-- C1: `start()` succeeds only when the status is `Init`; from `Running`
or `Stopped` (in particular on a second `start()` without an intervening
stop or process exit) it returns `InvalidState` carrying the current
status and changes neither the supervisor nor the world, so nothing is
spawned. -/
theorem start_only_from_init {S : Type} (a : RunnerHelper S) (r : DaemonRunner S)
    (w : World) (st : Status) (hst : DaemonRunner.status r w = some st) :
    (st ≠ Status.Init →
      DaemonRunner.start a r w = some (Except.error (Error.InvalidState st), r, w)) ∧
    (∀ res r' w', DaemonRunner.start a r w = some (res, r', w') →
      res = Except.ok () → st = Status.Init) := by
  have key : st ≠ Status.Init →
      DaemonRunner.start a r w = some (Except.error (Error.InvalidState st), r, w) := by
    intro hne
    unfold DaemonRunner.start
    rw [hst]
    cases st with
    | Init => exact absurd rfl hne
    | Running => rfl
    | Stopped c => rfl
  refine ⟨key, ?_⟩
  intro res r' w' hrun hok
  by_cases he : st = Status.Init
  · exact he
  · rw [key he] at hrun
    cases hrun
    exact Except.noConfusion hok

/-- Witness for C1: a second `start` on a supervisor whose process is
still running fails with `InvalidState Running` and changes nothing. -/
theorem start_only_from_init_witness :
    DaemonRunner.start natAdapter runnerLive worldRun =
      some (Except.error (Error.InvalidState Status.Running), runnerLive, worldRun) :=
  (start_only_from_init natAdapter runnerLive worldRun Status.Running rfl).1 (by decide)

/-- C2: `stop()` fails with `InvalidState` from `Init`; from `Stopped` it
is a no-op success leaving supervisor and world (hence the record and
the `Stopped` status) untouched; from `Running` it sends the kill signal
to the record's process and returns, keeping the record published in
either kill outcome, so `restart()` remains possible. -/
theorem stop_state_machine {S : Type} (r : DaemonRunner S) (w : World) :
    (DaemonRunner.status r w = some Status.Init →
      DaemonRunner.stop r w = some (Except.error (Error.InvalidState Status.Init), r, w)) ∧
    (∀ c, DaemonRunner.status r w = some (Status.Stopped c) →
      DaemonRunner.stop r w = some (Except.ok (), r, w)) ∧
    (DaemonRunner.status r w = some Status.Running →
      ∃ rt child, r.runtime = some rt ∧ rt.process = some child ∧
        ((∃ w1, w.killProc child.pid = Except.ok w1 ∧
            DaemonRunner.stop r w = some (Except.ok (), r, w1)) ∨
         (∃ e, w.killProc child.pid = Except.error e ∧
            DaemonRunner.stop r w = some (Except.error (Error.Io e), r, w)))) := by
  refine ⟨?_, ?_, ?_⟩
  · intro h
    unfold DaemonRunner.stop
    rw [h]
  · intro c h
    unfold DaemonRunner.stop
    rw [h]
  · intro h
    obtain ⟨rt, child, hr, hp, _⟩ := status_running_elim h
    refine ⟨rt, child, hr, hp, ?_⟩
    cases hk : w.killProc child.pid with
    | ok w1 =>
      refine Or.inl ⟨w1, rfl, ?_⟩
      unfold DaemonRunner.stop
      rw [h]
      simp only [hr, hp, hk]
    | error e =>
      refine Or.inr ⟨e, rfl, ?_⟩
      unfold DaemonRunner.stop
      rw [h]
      simp only [hr, hp, hk]

/-- Witness for C2, one concrete instance per branch: `stop` on a fresh
supervisor errors, on a stopped one is a no-op, on a running one kills. -/
theorem stop_state_machine_witness :
    DaemonRunner.stop runnerInit worldRun =
      some (Except.error (Error.InvalidState Status.Init), runnerInit, worldRun) ∧
    DaemonRunner.stop runnerLive worldDead = some (Except.ok (), runnerLive, worldDead) ∧
    (∃ rt child, runnerLive.runtime = some rt ∧ rt.process = some child ∧
      ((∃ w1, worldRun.killProc child.pid = Except.ok w1 ∧
          DaemonRunner.stop runnerLive worldRun = some (Except.ok (), runnerLive, w1)) ∨
       (∃ e, worldRun.killProc child.pid = Except.error e ∧
          DaemonRunner.stop runnerLive worldRun =
            some (Except.error (Error.Io e), runnerLive, worldRun)))) :=
  ⟨(stop_state_machine runnerInit worldRun).1 rfl,
   (stop_state_machine runnerLive worldDead).2.1 (ExitStatus.code 0) rfl,
   (stop_state_machine runnerLive worldRun).2.2 rfl⟩

/-- C6: for a stream that yields the lines `ls` and then end-of-stream,
the reader loop hands each line to the handler exactly once and in
stream order (the delivery trace is `ls` itself), accumulates the state
by folding the handler over the lines, and terminates. -/
theorem readerLoop_delivers_in_order {S : Type} (h : S → String → S) (s : S)
    (ls : List String) :
    readerLoop h s (ls.map LineItem.ok) = some (ls.foldl h s, ls) := by
  induction ls generalizing s with
  | nil => rfl
  | cons l rest ih => simp only [List.map_cons, readerLoop, ih, List.foldl_cons]

/-- C7: dropping a `KillOnDropChild` always attempts to kill the process
and returns in both outcomes: when the kill succeeds the world reflects
it, and when the kill fails the error is swallowed and the world is
returned unchanged — no error is ever surfaced. -/
theorem dropChild_total_swallow (w : World) (c : KillOnDropChild) :
    (∃ w1, w.killProc c.pid = Except.ok w1 ∧ KillOnDropChild.dropChild w c = w1) ∨
    (∃ e, w.killProc c.pid = Except.error e ∧ KillOnDropChild.dropChild w c = w) := by
  cases h : w.killProc c.pid with
  | ok w1 => exact Or.inl ⟨w1, rfl, by unfold KillOnDropChild.dropChild; rw [h]⟩
  | error e => exact Or.inr ⟨e, rfl, by unfold KillOnDropChild.dropChild; rw [h]⟩

/-- Lemma: `stop` never changes the number of processes in the world (its only
world effect is a kill, which marks a process exited in place). -/
theorem stop_world_len {S : Type} {r r' : DaemonRunner S} {w w' : World}
    {res : Except Error Unit}
    (h : DaemonRunner.stop r w = some (res, r', w')) :
    w'.procs.length = w.procs.length := by
  unfold DaemonRunner.stop at h
  split at h
  · exact Option.noConfusion h
  · cases h; rfl
  · cases h; rfl
  · split at h
    · exact Option.noConfusion h
    · split at h
      · exact Option.noConfusion h
      · split at h
        · cases h; rfl
        · rename_i w1 hk
          cases h
          unfold World.killProc at hk
          split at hk
          · cases hk
            simp [List.length_set]
          · exact Except.noConfusion hk

/-- C3: `restart()` fails with `InvalidState` from `Init`; from `Stopped`
it runs the start-up sub-protocol directly on the existing record; from
`Running` it first performs the implicit `stop()` (whose kill error
would propagate) and then runs the start-up sub-protocol on that same
existing record — in every non-Init case the published record `rt` is
reused, never rebuilt. -/
theorem restart_state_machine {S : Type} (a : RunnerHelper S) (r : DaemonRunner S)
    (w : World) :
    (DaemonRunner.status r w = some Status.Init →
      DaemonRunner.restart a r w =
        some (Except.error (Error.InvalidState Status.Init), r, w)) ∧
    (∀ c, DaemonRunner.status r w = some (Status.Stopped c) →
      ∃ rt, r.runtime = some rt ∧
        ((∃ e, DaemonRunner.startUp a rt w = Except.error e ∧
            DaemonRunner.restart a r w = some (Except.error e, r, w)) ∨
         (∃ rt1 w1, DaemonRunner.startUp a rt w = Except.ok (rt1, w1) ∧
            DaemonRunner.restart a r w =
              some (Except.ok (), { runtime := some rt1 }, w1)))) ∧
    (DaemonRunner.status r w = some Status.Running →
      ∃ rt child, r.runtime = some rt ∧ rt.process = some child ∧
        ((∃ w1, w.killProc child.pid = Except.ok w1 ∧
            ((∃ e, DaemonRunner.startUp a rt w1 = Except.error e ∧
                DaemonRunner.restart a r w = some (Except.error e, r, w1)) ∨
             (∃ rt1 w2, DaemonRunner.startUp a rt w1 = Except.ok (rt1, w2) ∧
                DaemonRunner.restart a r w =
                  some (Except.ok (), { runtime := some rt1 }, w2)))) ∨
         (∃ e, w.killProc child.pid = Except.error e ∧
            DaemonRunner.restart a r w = some (Except.error (Error.Io e), r, w)))) := by
  refine ⟨?_, ?_, ?_⟩
  · intro h
    unfold DaemonRunner.restart
    rw [h]
  · intro c h
    obtain ⟨rt, child, hr, hp, ht⟩ := status_stopped_elim h
    refine ⟨rt, hr, ?_⟩
    cases hsu : DaemonRunner.startUp a rt w with
    | error e =>
      refine Or.inl ⟨e, rfl, ?_⟩
      unfold DaemonRunner.restart DaemonRunner.restartTail
      rw [h]
      simp only [hr, hsu]
    | ok pr =>
      obtain ⟨rt1, w1⟩ := pr
      refine Or.inr ⟨rt1, w1, rfl, ?_⟩
      unfold DaemonRunner.restart DaemonRunner.restartTail
      rw [h]
      simp only [hr, hsu]
  · intro h
    obtain ⟨rt, child, hr, hp, ht⟩ := status_running_elim h
    refine ⟨rt, child, hr, hp, ?_⟩
    cases hk : w.killProc child.pid with
    | ok w1 =>
      have hstop : DaemonRunner.stop r w = some (Except.ok (), r, w1) := by
        unfold DaemonRunner.stop
        rw [h]
        simp only [hr, hp, hk]
      refine Or.inl ⟨w1, rfl, ?_⟩
      cases hsu : DaemonRunner.startUp a rt w1 with
      | error e =>
        refine Or.inl ⟨e, rfl, ?_⟩
        unfold DaemonRunner.restart DaemonRunner.restartTail
        rw [h, hstop]
        simp only [hr, hsu]
      | ok pr =>
        obtain ⟨rt1, w2⟩ := pr
        refine Or.inr ⟨rt1, w2, rfl, ?_⟩
        unfold DaemonRunner.restart DaemonRunner.restartTail
        rw [h, hstop]
        simp only [hr, hsu]
    | error e =>
      refine Or.inr ⟨e, rfl, ?_⟩
      have hstop : DaemonRunner.stop r w =
          some (Except.error (Error.Io e), r, w) := by
        unfold DaemonRunner.stop
        rw [h]
        simp only [hr, hp, hk]
      unfold DaemonRunner.restart
      rw [h, hstop]

/-- Witness for C3, one concrete instance per branch. -/
theorem restart_state_machine_witness :
    DaemonRunner.restart natAdapter runnerInit worldRun =
      some (Except.error (Error.InvalidState Status.Init), runnerInit, worldRun) ∧
    (∃ rt, runnerLive.runtime = some rt ∧
      ((∃ e, DaemonRunner.startUp natAdapter rt worldDead = Except.error e ∧
          DaemonRunner.restart natAdapter runnerLive worldDead =
            some (Except.error e, runnerLive, worldDead)) ∨
       (∃ rt1 w1, DaemonRunner.startUp natAdapter rt worldDead = Except.ok (rt1, w1) ∧
          DaemonRunner.restart natAdapter runnerLive worldDead =
            some (Except.ok (), { runtime := some rt1 }, w1)))) ∧
    (∃ rt child, runnerLive.runtime = some rt ∧ rt.process = some child ∧
      ((∃ w1, worldRun.killProc child.pid = Except.ok w1 ∧
          ((∃ e, DaemonRunner.startUp natAdapter rt w1 = Except.error e ∧
              DaemonRunner.restart natAdapter runnerLive worldRun =
                some (Except.error e, runnerLive, w1)) ∨
           (∃ rt1 w2, DaemonRunner.startUp natAdapter rt w1 = Except.ok (rt1, w2) ∧
              DaemonRunner.restart natAdapter runnerLive worldRun =
                some (Except.ok (), { runtime := some rt1 }, w2)))) ∨
       (∃ e, worldRun.killProc child.pid = Except.error e ∧
          DaemonRunner.restart natAdapter runnerLive worldRun =
            some (Except.error (Error.Io e), runnerLive, worldRun)))) :=
  ⟨(restart_state_machine natAdapter runnerInit worldRun).1 rfl,
   (restart_state_machine natAdapter runnerLive worldDead).2.1 (ExitStatus.code 0) rfl,
   (restart_state_machine natAdapter runnerLive worldRun).2.2 rfl⟩

/-- C5: `status()` returns `Init` exactly when no record is published
(in particular for a freshly constructed supervisor); on a published
record it polls the process non-blockingly and answers `Running` while
the process has not exited and `Stopped` with the exit status once it
has.  The operation returns no modified supervisor or world: it is a
pure read in the model. -/
theorem status_characterization {S : Type} (r : DaemonRunner S) (w : World) :
    (DaemonRunner.status r w = some Status.Init ↔ r.runtime = none) ∧
    (∀ rt child, r.runtime = some rt → rt.process = some child →
      (w.tryWait child.pid = none → DaemonRunner.status r w = some Status.Running) ∧
      (∀ c, w.tryWait child.pid = some c →
        DaemonRunner.status r w = some (Status.Stopped c))) := by
  refine ⟨⟨status_init_elim, ?_⟩, ?_⟩
  · intro h
    unfold DaemonRunner.status
    rw [h]
  · intro rt child hr hp
    constructor
    · intro ht
      unfold DaemonRunner.status
      simp only [hr, hp, ht]
    · intro c ht
      unfold DaemonRunner.status
      simp only [hr, hp, ht]

/-- Witness for C5: a fresh supervisor reports `Init`; a published
record reports `Running` while its process runs and `Stopped(code 0)`
once it exited. -/
theorem status_characterization_witness :
    DaemonRunner.status runnerInit worldRun = some Status.Init ∧
    DaemonRunner.status runnerLive worldRun = some Status.Running ∧
    DaemonRunner.status runnerLive worldDead =
      some (Status.Stopped (ExitStatus.code 0)) :=
  ⟨(status_characterization runnerInit worldRun).1.mpr rfl,
   ((status_characterization runnerLive worldRun).2 rtLive { pid := 0 } rfl rfl).1 rfl,
   ((status_characterization runnerLive worldDead).2 rtLive { pid := 0 } rfl rfl).2
     (ExitStatus.code 0) rfl⟩

/-- A successful `restartTail` (the `_start_up(get_runtime().unwrap())`
tail of `restart`) publishes the same record with only the process and
reader-loop handles replaced. -/
theorem restartTail_ok_elim {S : Type} {a : RunnerHelper S} {r r' : DaemonRunner S}
    {w w' : World}
    (h : DaemonRunner.restartTail a r w = some (Except.ok (), r', w')) :
    ∃ rt rt1, r.runtime = some rt ∧ r'.runtime = some rt1 ∧
      rt1.state = rt.state ∧
      rt1.process = some { pid := w.procs.length } ∧
      rt1.stdout_thread = some (2 * w.procs.length) ∧
      rt1.stderr_thread = some (2 * w.procs.length + 1) := by
  unfold DaemonRunner.restartTail at h
  split at h
  · exact Option.noConfusion h
  · rename_i rt hr
    split at h
    · simp at h
    · rename_i rt1 w1 hsu
      cases h
      obtain ⟨h1, h2, h3, h4⟩ := startUp_ok_elim hsu
      exact ⟨rt, rt1, hr, rfl, h1, h2, h3, h4⟩

/-- C4: a successful `restart()` leaves the record's daemon-defined
`state` exactly as it was and replaces only the process handle and the
two reader-loop handles (with the handles of the fresh spawn). -/
theorem restart_preserves_record_state {S : Type} (a : RunnerHelper S)
    (r r' : DaemonRunner S) (w w' : World)
    (h : DaemonRunner.restart a r w = some (Except.ok (), r', w')) :
    ∃ rt rt', r.runtime = some rt ∧ r'.runtime = some rt' ∧
      rt'.state = rt.state ∧
      rt'.process = some { pid := w.procs.length } ∧
      rt'.stdout_thread = some (2 * w.procs.length) ∧
      rt'.stderr_thread = some (2 * w.procs.length + 1) := by
  unfold DaemonRunner.restart at h
  split at h
  · exact Option.noConfusion h
  · simp at h
  · split at h
    · exact Option.noConfusion h
    · simp at h
    · rename_i u r1 w1 hstop
      obtain ⟨rt, rt1, hr1, hr2, h1, h2, h3, h4⟩ := restartTail_ok_elim h
      have he : r1 = r := stop_frame hstop
      subst he
      have hlen : w1.procs.length = w.procs.length := stop_world_len hstop
      rw [hlen] at h2 h3 h4
      exact ⟨rt, rt1, hr1, hr2, h1, h2, h3, h4⟩
  · obtain ⟨rt, rt1, hr1, hr2, h1, h2, h3, h4⟩ := restartTail_ok_elim h
    exact ⟨rt, rt1, hr1, hr2, h1, h2, h3, h4⟩

/-- The record published by the concrete successful restart below. -/
def rtAfterRestart : RuntimeData Nat :=
  { state := 5, process := some { pid := 1 },
    stdout_thread := some 2, stderr_thread := some 3 }

/-- The supervisor after the concrete successful restart below. -/
def runnerAfterRestart : DaemonRunner Nat := { runtime := some rtAfterRestart }

/-- The world after the concrete successful restart below: the old
process 0 stays exited, a fresh process 1 runs. -/
def worldAfterRestart : World :=
  { procs := [ProcState.exited (ExitStatus.code 0), ProcState.running],
    spawnFail := false }

/-- Witness for C4: a concrete restart from `Stopped` preserves the
accumulated state (5) while handing out the fresh pid 1. -/
theorem restart_preserves_record_state_witness :
    ∃ rt rt', runnerLive.runtime = some rt ∧
      runnerAfterRestart.runtime = some rt' ∧
      rt'.state = rt.state ∧
      rt'.process = some { pid := worldDead.procs.length } ∧
      rt'.stdout_thread = some (2 * worldDead.procs.length) ∧
      rt'.stderr_thread = some (2 * worldDead.procs.length + 1) :=
  restart_preserves_record_state natAdapter runnerLive runnerAfterRestart
    worldDead worldAfterRestart rfl

/-- Lemma: `_start_up` can only fail with a `RunCommand` error wrapping the
attempted command. -/
theorem startUp_error_elim {S : Type} {a : RunnerHelper S} {rt : RuntimeData S}
    {w : World} {e : Error} (h : DaemonRunner.startUp a rt w = Except.error e) :
    ∃ e0, e = Error.RunCommand e0 a.command := by
  unfold DaemonRunner.startUp at h
  split at h
  · rename_i e0 hsp
    cases h
    exact ⟨e0, rfl⟩
  · simp at h

/-- From `Running`, a failing `stop` can only report an I/O error of the
kill, never `InvalidState`. -/
theorem stop_running_error_elim {S : Type} {r r' : DaemonRunner S} {w w' : World}
    {e : Error} (hst : DaemonRunner.status r w = some Status.Running)
    (h : DaemonRunner.stop r w = some (Except.error e, r', w')) :
    ∃ e0, e = Error.Io e0 := by
  obtain ⟨rt, child, hr, hp, ht⟩ := status_running_elim hst
  unfold DaemonRunner.stop at h
  rw [hst] at h
  simp only [hr, hp] at h
  cases hk : w.killProc child.pid with
  | ok w1 => rw [hk] at h; simp at h
  | error e0 =>
    rw [hk] at h
    simp only [Option.some.injEq, Prod.mk.injEq] at h
    exact ⟨e0, (Except.error.inj h.1).symm⟩

/-- A failing `restartTail` can only report the `RunCommand` error of
the spawn, never `InvalidState`. -/
theorem restartTail_error_elim {S : Type} {a : RunnerHelper S} {r r' : DaemonRunner S}
    {w w' : World} {e : Error}
    (h : DaemonRunner.restartTail a r w = some (Except.error e, r', w')) :
    ∃ e0, e = Error.RunCommand e0 a.command := by
  unfold DaemonRunner.restartTail at h
  split at h
  · exact Option.noConfusion h
  · rename_i rt hr
    split at h
    · rename_i e1 hsu
      simp only [Option.some.injEq, Prod.mk.injEq] at h
      obtain ⟨e0, he⟩ := startUp_error_elim hsu
      cases h.1
      exact ⟨e0, he⟩
    · simp at h

/-- C8 counterexample: `stop()` and `restart()` attempted from `Init`
produce the very same error value, whose user-visible (Debug-derived
Display) text is exactly "InvalidState(Init)" — it names the status but
contains nothing identifying which operation was attempted, so the
error does not identify the operation. -/
theorem invalidState_not_op_specific :
    DaemonRunner.stop runnerInit worldRun =
      some (Except.error (Error.InvalidState Status.Init), runnerInit, worldRun) ∧
    DaemonRunner.restart natAdapter runnerInit worldRun =
      some (Except.error (Error.InvalidState Status.Init), runnerInit, worldRun) ∧
    Error.displayFmt (Error.InvalidState Status.Init) = "InvalidState(Init)" :=
  ⟨rfl, rfl, rfl⟩

/-- C8 (amended): every `InvalidState` error that `start()`, `stop()` or
`restart()` itself produces (as opposed to an adapter `prepare` error
passed through verbatim) carries exactly the lifecycle status the
supervisor was in at the time of the call, and the user-visible
Debug-derived text names that status — but not the operation. -/
theorem invalidState_names_status {S : Type} (a : RunnerHelper S) (r : DaemonRunner S)
    (w : World) (st : Status)
    (hprep : ∀ s, a.prepare ≠ Except.error (Error.InvalidState s)) :
    (∀ res r' w', DaemonRunner.start a r w = some (res, r', w') →
      res = Except.error (Error.InvalidState st) →
      DaemonRunner.status r w = some st) ∧
    (∀ res r' w', DaemonRunner.stop r w = some (res, r', w') →
      res = Except.error (Error.InvalidState st) →
      DaemonRunner.status r w = some st) ∧
    (∀ res r' w', DaemonRunner.restart a r w = some (res, r', w') →
      res = Except.error (Error.InvalidState st) →
      DaemonRunner.status r w = some st) ∧
    Error.displayFmt (Error.InvalidState st) =
      "InvalidState(" ++ Status.debugFmt st ++ ")" := by
  refine ⟨?_, ?_, ?_, rfl⟩
  · intro res r' w' h hres
    subst hres
    unfold DaemonRunner.start at h
    split at h
    · exact Option.noConfusion h
    · split at h
      · rename_i e hpr
        simp only [Option.some.injEq, Prod.mk.injEq] at h
        obtain ⟨h1, -⟩ := h
        cases h1
        exact absurd hpr (hprep st)
      · split at h
        · simp only [Option.some.injEq, Prod.mk.injEq] at h
          obtain ⟨h1, -⟩ := h
          rename_i e hsu
          obtain ⟨e0, he⟩ := startUp_error_elim hsu
          rw [he] at h1
          exact Error.noConfusion (Except.error.inj h1)
        · simp at h
    · rename_i st' hne hst'
      simp only [Option.some.injEq, Prod.mk.injEq] at h
      obtain ⟨h1, -⟩ := h
      have : st' = st := by
        have := Except.error.inj h1
        exact Error.InvalidState.inj this
      rw [← this]
      assumption
  · intro res r' w' h hres
    subst hres
    unfold DaemonRunner.stop at h
    split at h
    · exact Option.noConfusion h
    · rename_i hst'
      simp only [Option.some.injEq, Prod.mk.injEq] at h
      obtain ⟨h1, -⟩ := h
      have : Status.Init = st := Error.InvalidState.inj (Except.error.inj h1)
      rw [← this]
      assumption
    · simp at h
    · rename_i hst'
      split at h
      · exact Option.noConfusion h
      · split at h
        · exact Option.noConfusion h
        · split at h
          · simp only [Option.some.injEq, Prod.mk.injEq] at h
            obtain ⟨h1, -⟩ := h
            exact absurd (Except.error.inj h1) (fun hh => Error.noConfusion hh)
          · simp at h
  · intro res r' w' h hres
    subst hres
    unfold DaemonRunner.restart at h
    split at h
    · exact Option.noConfusion h
    · rename_i hst'
      simp only [Option.some.injEq, Prod.mk.injEq] at h
      obtain ⟨h1, -⟩ := h
      have : Status.Init = st := Error.InvalidState.inj (Except.error.inj h1)
      rw [← this]
      assumption
    · rename_i hst'
      split at h
      · exact Option.noConfusion h
      · rename_i e r1 w1 hstop
        simp only [Option.some.injEq, Prod.mk.injEq] at h
        obtain ⟨h1, -⟩ := h
        cases h1
        obtain ⟨e0, he⟩ := stop_running_error_elim hst' hstop
        exact absurd he (fun hh => Error.noConfusion hh)
      · rename_i u r1 w1 hstop
        obtain ⟨e0, he⟩ := restartTail_error_elim h
        exact absurd he (fun hh => Error.noConfusion hh)
    · obtain ⟨e0, he⟩ := restartTail_error_elim h
      exact absurd he (fun hh => Error.noConfusion hh)

/-- Witness for C8 (amended): at the concrete `Init` supervisor the
`stop` branch yields `InvalidState Init`, whose payload is exactly the
status at call time. -/
theorem invalidState_names_status_witness :
    DaemonRunner.status runnerInit worldRun = some Status.Init ∧
    Error.displayFmt (Error.InvalidState Status.Init) =
      "InvalidState(" ++ Status.debugFmt Status.Init ++ ")" :=
  ⟨(invalidState_names_status natAdapter runnerInit worldRun Status.Init
      (by intro s hcon; simp [natAdapter] at hcon)).2.1
      (Except.error (Error.InvalidState Status.Init)) runnerInit worldRun rfl rfl,
   (invalidState_names_status natAdapter runnerInit worldRun Status.Init
      (by intro s hcon; simp [natAdapter] at hcon)).2.2.2⟩

/-- Every runner a successful or failed `start` leaves behind either is
the unchanged input or publishes a record holding a process handle. -/
theorem start_cases {S : Type} {a : RunnerHelper S} {r r' : DaemonRunner S}
    {w w' : World} {res : Except Error Unit}
    (h : DaemonRunner.start a r w = some (res, r', w')) :
    r' = r ∨ ∃ rt1, r' = { runtime := some rt1 } ∧ rt1.process.isSome := by
  unfold DaemonRunner.start at h
  split at h
  · exact Option.noConfusion h
  · split at h
    · cases h; exact Or.inl rfl
    · split at h
      · cases h; exact Or.inl rfl
      · rename_i rt1 w1 hsu
        cases h
        obtain ⟨-, h2, -, -⟩ := startUp_ok_elim hsu
        exact Or.inr ⟨rt1, rfl, by rw [h2]; rfl⟩
  · cases h; exact Or.inl rfl

/-- Every runner `restartTail` leaves behind is the unchanged input or
publishes a record holding a process handle. -/
theorem restartTail_cases {S : Type} {a : RunnerHelper S} {r r' : DaemonRunner S}
    {w w' : World} {res : Except Error Unit}
    (h : DaemonRunner.restartTail a r w = some (res, r', w')) :
    r' = r ∨ ∃ rt1, r' = { runtime := some rt1 } ∧ rt1.process.isSome := by
  unfold DaemonRunner.restartTail at h
  split at h
  · exact Option.noConfusion h
  · split at h
    · cases h; exact Or.inl rfl
    · rename_i rt1 w1 hsu
      cases h
      obtain ⟨-, h2, -, -⟩ := startUp_ok_elim hsu
      exact Or.inr ⟨rt1, rfl, by rw [h2]; rfl⟩

/-- Every runner `restart` leaves behind is the unchanged input or
publishes a record holding a process handle. -/
theorem restart_cases {S : Type} {a : RunnerHelper S} {r r' : DaemonRunner S}
    {w w' : World} {res : Except Error Unit}
    (h : DaemonRunner.restart a r w = some (res, r', w')) :
    r' = r ∨ ∃ rt1, r' = { runtime := some rt1 } ∧ rt1.process.isSome := by
  unfold DaemonRunner.restart at h
  split at h
  · exact Option.noConfusion h
  · cases h; exact Or.inl rfl
  · split at h
    · exact Option.noConfusion h
    · rename_i e r1 w1 hstop
      cases h
      exact Or.inl (stop_frame hstop)
    · rename_i u r1 w1 hstop
      rcases restartTail_cases h with h1 | h1
      · exact Or.inl (h1.trans (stop_frame hstop))
      · exact Or.inr h1
  · exact restartTail_cases h

/-- Under the record invariant, `status` never panics. -/
theorem inv_status_ne_none {S : Type} {r : DaemonRunner S} (hinv : ProcessInv r)
    (w : World) : DaemonRunner.status r w ≠ none := by
  unfold DaemonRunner.status
  cases hr : r.runtime with
  | none => simp
  | some rt =>
    have hps := hinv rt hr
    cases hp : rt.process with
    | none => rw [hp] at hps; exact absurd hps (by simp)
    | some child =>
      simp only [hp]
      cases w.tryWait child.pid <;> simp

/-- Under the record invariant, `stop` never panics. -/
theorem inv_stop_ne_none {S : Type} {r : DaemonRunner S} (hinv : ProcessInv r)
    (w : World) : DaemonRunner.stop r w ≠ none := by
  unfold DaemonRunner.stop
  cases hs : DaemonRunner.status r w with
  | none => exact absurd hs (inv_status_ne_none hinv w)
  | some st =>
    cases st with
    | Init => simp
    | Stopped c => simp
    | Running =>
      obtain ⟨rt, child, hr, hp, ht⟩ := status_running_elim hs
      simp only [hr, hp]
      cases w.killProc child.pid <;> simp

/-- Under the record invariant, `pid` never panics. -/
theorem inv_pid_ne_none {S : Type} {r : DaemonRunner S} (hinv : ProcessInv r) :
    DaemonRunner.pid r ≠ none := by
  unfold DaemonRunner.pid
  cases hr : r.runtime with
  | none => simp
  | some rt =>
    have hps := hinv rt hr
    cases hp : rt.process with
    | none => rw [hp] at hps; exact absurd hps (by simp)
    | some child => simp [hp]

/-- C9: in every supervisor state reachable through the public
operations, a published record always holds a process handle, and
therefore the process accesses of `status()`, `stop()` and `pid()`
never hit a missing handle (never panic). -/
theorem reachable_record_has_process {S : Type} (r : DaemonRunner S)
    (h : Reachable r) :
    ProcessInv r ∧
    (∀ w, DaemonRunner.status r w ≠ none) ∧
    (∀ w, DaemonRunner.stop r w ≠ none) ∧
    DaemonRunner.pid r ≠ none := by
  have hinv : ProcessInv r := by
    induction h with
    | init => intro rt hrt; exact Option.noConfusion hrt
    | step_start hr hstep ih =>
      rcases start_cases hstep with h1 | ⟨rt1, h1, h2⟩
      · rw [h1]; exact ih
      · rw [h1]
        intro rt hrt
        cases hrt
        exact h2
    | step_restart hr hstep ih =>
      rcases restart_cases hstep with h1 | ⟨rt1, h1, h2⟩
      · rw [h1]; exact ih
      · rw [h1]
        intro rt hrt
        cases hrt
        exact h2
    | step_stop hr hstep ih =>
      rw [stop_frame hstep]; exact ih
  exact ⟨hinv, fun w => inv_status_ne_none hinv w,
    fun w => inv_stop_ne_none hinv w, inv_pid_ne_none hinv⟩

/-- The record published by a concrete first `start` in `worldRun`
(the new process gets pid 1). -/
def rtAfterStart : RuntimeData Nat :=
  { state := 0, process := some { pid := 1 },
    stdout_thread := some 2, stderr_thread := some 3 }

/-- The supervisor produced by that concrete first `start`. -/
def runnerAfterStart : DaemonRunner Nat := { runtime := some rtAfterStart }

/-- The world after that concrete first `start`. -/
def worldAfterStart : World :=
  { procs := [ProcState.running, ProcState.running], spawnFail := false }

/-- The concrete `start` step used to build a reachable published state. -/
theorem start_concrete_step :
    DaemonRunner.start natAdapter runnerInit worldRun =
      some (Except.ok (), runnerAfterStart, worldAfterStart) := rfl

/-- Witness for C9: a supervisor reached by one successful `start` has
the invariant, and its accessors do not panic. -/
theorem reachable_record_has_process_witness :
    ProcessInv runnerAfterStart ∧
    DaemonRunner.status runnerAfterStart worldAfterStart ≠ none ∧
    DaemonRunner.stop runnerAfterStart worldAfterStart ≠ none ∧
    DaemonRunner.pid runnerAfterStart ≠ none :=
  ⟨(reachable_record_has_process runnerAfterStart
      (Reachable.step_start Reachable.init start_concrete_step)).1,
   (reachable_record_has_process runnerAfterStart
      (Reachable.step_start Reachable.init start_concrete_step)).2.1 worldAfterStart,
   (reachable_record_has_process runnerAfterStart
      (Reachable.step_start Reachable.init start_concrete_step)).2.2.1 worldAfterStart,
   (reachable_record_has_process runnerAfterStart
      (Reachable.step_start Reachable.init start_concrete_step)).2.2.2⟩

/-- C10: when `start()` on a fresh supervisor returns an error — whether
from the prepare hook or from a failed spawn — the freshly built record
is never published: the supervisor and world are unchanged, `status()`
still answers `Init`, `pid()` still answers `none`, and a subsequent
`start()` with a succeeding adapter and world goes through. -/
theorem start_error_frame {S : Type} (a : RunnerHelper S) (r r' : DaemonRunner S)
    (w w' : World) (e : Error)
    (h0 : r.runtime = none)
    (h : DaemonRunner.start a r w = some (Except.error e, r', w')) :
    r' = r ∧ w' = w ∧ DaemonRunner.status r' w' = some Status.Init ∧
    DaemonRunner.pid r' = some none ∧
    (∀ (a2 : RunnerHelper S) (w2 : World), a2.prepare = Except.ok () →
      w2.spawnFail = false →
      DaemonRunner.start a2 r' w2 =
        some (Except.ok (),
          { runtime :=
              some { state := a2.initState,
                     process := some { pid := w2.procs.length },
                     stdout_thread := some (2 * w2.procs.length),
                     stderr_thread := some (2 * w2.procs.length + 1) } },
          { procs := w2.procs ++ [ProcState.running], spawnFail := w2.spawnFail })) := by
  have hst : DaemonRunner.status r w = some Status.Init := by
    unfold DaemonRunner.status
    rw [h0]
  have hframe : r' = r ∧ w' = w := by
    unfold DaemonRunner.start at h
    rw [hst] at h
    split at h
    · exact Option.noConfusion h
    · split at h
      · cases h; exact ⟨rfl, rfl⟩
      · split at h
        · cases h; exact ⟨rfl, rfl⟩
        · simp at h
    · rename_i st hne heq
      exact absurd (Option.some.inj heq).symm hne
  obtain ⟨hr, hw⟩ := hframe
  subst hr; subst hw
  refine ⟨rfl, rfl, ?_, ?_, ?_⟩
  · unfold DaemonRunner.status
    rw [h0]
  · unfold DaemonRunner.pid
    rw [h0]
  · intro a2 w2 hp2 hs2
    have hst2 : DaemonRunner.status r' w2 = some Status.Init := by
      unfold DaemonRunner.status
      rw [h0]
    unfold DaemonRunner.start
    rw [hst2, hp2]
    unfold DaemonRunner.startUp World.spawn
    rw [hs2]
    simp

/-- Witness for C10: a concrete failed `start` (prepare hook error) on a
fresh supervisor leaves it fresh, and a retry with a good adapter
succeeds. -/
theorem start_error_frame_witness :
    runnerInit = runnerInit ∧ worldRun = worldRun ∧
    DaemonRunner.status runnerInit worldRun = some Status.Init ∧
    DaemonRunner.pid runnerInit = some none ∧
    (∀ (a2 : RunnerHelper Nat) (w2 : World), a2.prepare = Except.ok () →
      w2.spawnFail = false →
      DaemonRunner.start a2 runnerInit w2 =
        some (Except.ok (),
          { runtime :=
              some { state := a2.initState,
                     process := some { pid := w2.procs.length },
                     stdout_thread := some (2 * w2.procs.length),
                     stderr_thread := some (2 * w2.procs.length + 1) } },
          { procs := w2.procs ++ [ProcState.running], spawnFail := w2.spawnFail })) :=
  start_error_frame failPrepAdapter runnerInit runnerInit worldRun worldRun
    (Error.Custom "no datadir") rfl rfl
